import Mathlib

/-!
Verification of the per-sample enrichment orchestration pipeline of
`EnrichmentAnalyzer` (files `enrichment_pipeline.py`, `batch_processing.py`).

The embedding mirrors the Python source:
* a DEG table is a list of rows together with flags recording which of the
  relevant columns (gene, regulation, log2FoldChange) are present and whether
  the file parsed at all — `pandas` reading and column lookup are external,
  so their success is an input of the model;
* floating-point fold changes and p-values are modelled by `ℚ`;
* the external enrichment provider (`gp.enrichr`) is a parameter returning
  `Except String EnrTable`, an `.error` modelling a raised exception;
* `run_enrichment` additionally reports whether control reached the provider
  call, so that "no provider call" claims are statable;
* `analyze_sample` additionally returns the list of enrichment-invoker calls
  it issued, in program order, so that query-count claims are statable.
  The Python result dictionaries `go_results` / `pathway_results` are keyed
  by pairwise-distinct `(direction, category)` keys, so they are modelled by
  one binding per key;
* the base-10 logarithm applied by the plotting code is external real-number
  arithmetic and is abstracted as a function parameter `log10`.
-/

/-- One row of the input DEG table.  The `regulation` field is meaningful
only when the table's regulation column is present, `log2FoldChange` only
when the fold-change column is present. -/
structure DegRow where
  gene : String
  regulation : String
  log2FoldChange : ℚ
deriving Repr, DecidableEq

/-- An input XLSX table as seen by `load_degs`: whether `pd.read_excel`
succeeds, which columns exist, and the rows. -/
structure DegTable where
  parses : Bool
  hasGeneCol : Bool
  hasRegCol : Bool
  hasFCCol : Bool
  rows : List DegRow
deriving Repr, DecidableEq

/-- `np.where(df['log2FoldChange'] > 0, 'Upregulated', 'Downregulated')`,
applied row-wise when the regulation column is absent. -/
def deriveRegulation (fc : ℚ) : String :=
  if 0 < fc then "Upregulated" else "Downregulated"

/-- The regulation value a row effectively carries inside `load_degs`:
the column value when the column exists, the derived value otherwise. -/
def effectiveRegulation (hasRegCol : Bool) (r : DegRow) : String :=
  if hasRegCol then r.regulation else deriveRegulation r.log2FoldChange

/-- `EnrichmentAnalyzer.load_degs`: parse the file, derive the regulation
column from `log2FoldChange` when absent, and split the gene column by
direction.  The three `KeyError`/parse failure points of the source are the
three `.error` branches, in source order. -/
def load_degs (t : DegTable) : Except String (List String × List String) :=
  if !t.parses then Except.error "read_excel failed"
  else if !t.hasRegCol && !t.hasFCCol then Except.error "KeyError: log2FoldChange"
  else if !t.hasGeneCol then Except.error "KeyError: gene"
  else Except.ok
    ((t.rows.filter (fun r => effectiveRegulation t.hasRegCol r = "Upregulated")).map DegRow.gene,
     (t.rows.filter (fun r => effectiveRegulation t.hasRegCol r = "Downregulated")).map DegRow.gene)

/-- One row of an enrichment result table returned by the provider. -/
structure EnrRow where
  term : String
  pvalue : ℚ
  adjPValue : ℚ
  genes : List String
deriving Repr, DecidableEq

/-- An enrichment result table (`enr_result.results`). -/
abbrev EnrTable := List EnrRow

/-- The external enrichment provider `gp.enrichr`, as a capability:
`(gene_list, gene_sets, organism) → result or raised exception`. -/
abbrev Provider := List String → List String → String → Except String EnrTable

/-- `EnrichmentAnalyzer.run_enrichment`: empty gene list short-circuits to
`None` before the provider call; a provider exception is caught and becomes
`None`.  The second component records whether the provider was invoked. -/
def run_enrichment (provider : Provider) (organism : String)
    (gene_list gene_set : List String) : Option EnrTable × Bool :=
  if gene_list.isEmpty then (none, false)
  else
    match provider gene_list gene_set organism with
    | Except.ok r => (some r, true)
    | Except.error _ => (none, true)

/-- `EnrichmentAnalyzer.filter_significant`: `None` or empty input gives an
empty table, otherwise the rows with `Adjusted P-value < p_threshold`. -/
def filter_significant (results_df : Option EnrTable) (p_threshold : ℚ) : EnrTable :=
  match results_df with
  | none => []
  | some df => if df.isEmpty then [] else df.filter (fun r => r.adjPValue < p_threshold)

/-- One bar of the comparison chart: term label, direction legend entry, and
the value plotted on the x axis (the column named `-log10(p-value)`). -/
structure PlotBar where
  term : String
  direction : String
  magnitude : ℚ
deriving Repr, DecidableEq

/-- Data preparation of `EnrichmentAnalyzer.create_comparison_plot`: each
non-empty input is truncated to its first `top_n` rows; up-regulated rows get
magnitude `-log10(adjP)`, down-regulated rows get the non-negated
`log10(adjP)`.  When both prepared tables are empty no chart is produced
(`none`); otherwise the combined bar list is returned. -/
def create_comparison_plot (log10 : ℚ → ℚ) (up_results down_results : EnrTable)
    (top_n : ℕ) : Option (List PlotBar) :=
  let up_plot_data :=
    if !up_results.isEmpty then
      (up_results.take top_n).map
        (fun r => PlotBar.mk r.term "Upregulated" (-(log10 r.adjPValue)))
    else []
  let down_plot_data :=
    if !down_results.isEmpty then
      (down_results.take top_n).map
        (fun r => PlotBar.mk r.term "Downregulated" (log10 r.adjPValue))
    else []
  if up_plot_data.isEmpty && down_plot_data.isEmpty then none
  else some (up_plot_data ++ down_plot_data)

/-- Python `str.lower()`, character-wise (ASCII suffices for the organism
names compared against). -/
def strLower (s : String) : String := String.mk (s.data.map Char.toLower)

/-- `EnrichmentAnalyzer._get_libraries`: the organism-specific library
catalog `(go, pathways)` held in `self.libraries`. -/
def get_libraries (organism : String) : List String × List String :=
  if strLower organism = "zebrafish" then
    (["GO_Biological_Process_2018", "GO_Molecular_Function_2018", "GO_Cellular_Component_2018"],
     ["WikiPathways_2018", "KEGG_2019"])
  else if strLower organism = "human" then
    (["GO_Biological_Process_2021", "GO_Molecular_Function_2021", "GO_Cellular_Component_2021"],
     ["WikiPathways_2019_Human", "KEGG_2021_Human"])
  else
    (["GO_Biological_Process_2018", "GO_Molecular_Function_2018", "GO_Cellular_Component_2018"],
     ["WikiPathways_2018", "KEGG_2019"])

/-- One enrichment-invoker call issued by `analyze_sample`: the gene list,
the gene-set library identifiers, and the organism passed through. -/
structure Query where
  genes : List String
  libraries : List String
  organism : String
deriving Repr, DecidableEq

/-- The result record `analyze_sample` returns (the Python dictionary).
Fields absent from a given dictionary are `none` / `[]`: the load-failure
dictionary carries only `status` and `error`. -/
structure SampleOutcome where
  sample_name : Option String
  up_genes_count : Option ℕ
  down_genes_count : Option ℕ
  status : String
  error : Option String
  significant_counts : List (String × ℕ)
deriving Repr, DecidableEq

/-- `EnrichmentAnalyzer.analyze_sample` for one sample: load the DEGs (on
failure return the two-key failed dictionary and issue no query), then run
the invoker once per (category, direction) pair — the three `GO_*_2018`
ontology libraries and the two pathway databases, up then down each, in
source order — and record the ten significant-term counts obtained by
filtering each stored result (or an empty table when the invoker returned
`None`).  Returns the outcome together with the invoker-call log. -/
def analyze_sample (provider : Provider) (organism : String) (t : DegTable)
    (sample_name : String) (p_threshold : ℚ) : SampleOutcome × List Query :=
  match load_degs t with
  | Except.error e =>
      ({ sample_name := none, up_genes_count := none, down_genes_count := none,
         status := "failed", error := some e, significant_counts := [] }, [])
  | Except.ok (up_genes, down_genes) =>
      let q := fun (genes : List String) (libs : List String) =>
        (run_enrichment provider organism genes libs).1
      let upBP := q up_genes ["GO_Biological_Process_2018"]
      let downBP := q down_genes ["GO_Biological_Process_2018"]
      let upMF := q up_genes ["GO_Molecular_Function_2018"]
      let downMF := q down_genes ["GO_Molecular_Function_2018"]
      let upCC := q up_genes ["GO_Cellular_Component_2018"]
      let downCC := q down_genes ["GO_Cellular_Component_2018"]
      let upWiki := q up_genes ["WikiPathways_2018"]
      let downWiki := q down_genes ["WikiPathways_2018"]
      let upKegg := q up_genes ["KEGG_2019"]
      let downKegg := q down_genes ["KEGG_2019"]
      let sig := fun (res : Option EnrTable) =>
        (filter_significant (some (res.getD [])) p_threshold).length
      let outcome : SampleOutcome :=
        { sample_name := some sample_name
          up_genes_count := some up_genes.length
          down_genes_count := some down_genes.length
          status := "success"
          error := none
          significant_counts :=
            [("go_biological_process_up_significant", sig upBP),
             ("go_biological_process_down_significant", sig downBP),
             ("go_molecular_function_up_significant", sig upMF),
             ("go_molecular_function_down_significant", sig downMF),
             ("go_cellular_component_up_significant", sig upCC),
             ("go_cellular_component_down_significant", sig downCC),
             ("wikipathways_up_significant", sig upWiki),
             ("wikipathways_down_significant", sig downWiki),
             ("kegg_up_significant", sig upKegg),
             ("kegg_down_significant", sig downKegg)] }
      let log : List Query :=
        [Query.mk up_genes ["GO_Biological_Process_2018"] organism,
         Query.mk down_genes ["GO_Biological_Process_2018"] organism,
         Query.mk up_genes ["GO_Molecular_Function_2018"] organism,
         Query.mk down_genes ["GO_Molecular_Function_2018"] organism,
         Query.mk up_genes ["GO_Cellular_Component_2018"] organism,
         Query.mk down_genes ["GO_Cellular_Component_2018"] organism,
         Query.mk up_genes ["WikiPathways_2018"] organism,
         Query.mk down_genes ["WikiPathways_2018"] organism,
         Query.mk up_genes ["KEGG_2019"] organism,
         Query.mk down_genes ["KEGG_2019"] organism]
      (outcome, log)

/-- One discovered input file of a batch: its derived sample name (the stem)
and its table content. -/
structure BatchFile where
  name : String
  table : DegTable
deriving Repr, DecidableEq

/-- `EnrichmentAnalyzer.batch_analyze` over already-discovered files: every
file is handed to the per-sample analyzer (a parameter, since the real
analyzer may raise anywhere inside); an exception is caught per file and
recorded as a failed outcome carrying the sample name and the error text.
The summary rows are collected in file-discovery order. -/
def batch_analyze (analyzeFn : String → DegTable → Except String SampleOutcome)
    (files : List BatchFile) : List SampleOutcome :=
  files.map (fun f =>
    match analyzeFn f.name f.table with
    | Except.ok result => result
    | Except.error e =>
        { sample_name := some f.name, up_genes_count := none, down_genes_count := none,
          status := "failed", error := some e, significant_counts := [] })

/-! Concrete fixtures used by witnesses and counterexamples. -/

/-- A provider that always raises (models a network failure). -/
def failProvider : Provider := fun _ _ _ => Except.error "ConnectionError"

/-- A provider that always returns an empty result table. -/
def emptyProvider : Provider := fun _ _ _ => Except.ok []

/-- A table whose file does not parse (`pd.read_excel` raises). -/
def unparsableTable : DegTable :=
  { parses := false, hasGeneCol := true, hasRegCol := true, hasFCCol := true, rows := [] }

/-- A well-formed table with a regulation column: one up gene, one down gene. -/
def okTable : DegTable :=
  { parses := true, hasGeneCol := true, hasRegCol := true, hasFCCol := false,
    rows := [DegRow.mk "TP53" "Upregulated" 0, DegRow.mk "BRCA1" "Downregulated" 0] }

/-- The six-gene fold-change-only table of the end-to-end scenario:
three positive values, two negative values and one zero. -/
def fcTable : DegTable :=
  { parses := true, hasGeneCol := true, hasRegCol := false, hasFCCol := true,
    rows := [DegRow.mk "g1" "" 2, DegRow.mk "g2" "" (-1), DegRow.mk "g3" "" (1/2),
             DegRow.mk "g4" "" (-3), DegRow.mk "g5" "" (3/2), DegRow.mk "g6" "" 0] }

/-- A table with a valid regulation column in which the same gene symbol
occurs once up-regulated and once down-regulated. -/
def dupGeneTable : DegTable :=
  { parses := true, hasGeneCol := true, hasRegCol := true, hasFCCol := false,
    rows := [DegRow.mk "GeneA" "Upregulated" 0, DegRow.mk "GeneA" "Downregulated" 0] }

/-- A per-file analyzer that raises on every file. -/
def throwAnalyzer : String → DegTable → Except String SampleOutcome :=
  fun _ _ => Except.error "boom"

/-- Claim C7: the enrichment invoker returns the no-result sentinel for an
empty gene list immediately, without raising and without a provider call. -/
theorem run_enrichment_empty_no_call (provider : Provider) (organism : String)
    (gene_set : List String) :
    run_enrichment provider organism [] gene_set = (none, false) := rfl

/-- Claim C8: for a non-empty gene list, a provider exception is caught by
the invoker and converted to the no-result sentinel; the provider was
invoked, and nothing propagates (the invoker is a total function). -/
theorem run_enrichment_provider_error_caught (provider : Provider) (organism : String)
    (gene_list gene_set : List String) (e : String)
    (hne : gene_list ≠ [])
    (herr : provider gene_list gene_set organism = Except.error e) :
    run_enrichment provider organism gene_list gene_set = (none, true) := by
  simp [run_enrichment, List.isEmpty_iff, hne, herr]

theorem run_enrichment_provider_error_caught_witness :
    (["TP53"] : List String) ≠ [] ∧
    failProvider ["TP53"] ["KEGG_2019"] "human" = Except.error "ConnectionError" ∧
    run_enrichment failProvider "human" ["TP53"] ["KEGG_2019"] = (none, true) :=
  ⟨by decide, rfl,
    run_enrichment_provider_error_caught failProvider "human" ["TP53"] ["KEGG_2019"]
      "ConnectionError" (by decide) rfl⟩

/-- Claim C9: the significance filter returns exactly the rows whose
adjusted p-value is strictly below the threshold; a no-result (`none`) or
empty input yields the empty table, and the filter never raises (it is a
total function). -/
theorem filter_significant_exact (results_df : Option EnrTable) (p_threshold : ℚ) :
    filter_significant results_df p_threshold
      = (results_df.getD []).filter (fun r => r.adjPValue < p_threshold) ∧
    (∀ r : EnrRow, r ∈ filter_significant results_df p_threshold ↔
      r ∈ results_df.getD [] ∧ r.adjPValue < p_threshold) ∧
    filter_significant none p_threshold = [] := by
  refine ⟨?_, ?_, rfl⟩
  · cases results_df with
    | none => rfl
    | some df =>
        cases df with
        | nil => rfl
        | cons a l => simp [filter_significant]
  · intro r
    cases results_df with
    | none => simp [filter_significant]
    | some df =>
        cases df with
        | nil => simp [filter_significant]
        | cons a l => simp [filter_significant, List.mem_filter]

/-- Claim C5: when the regulation column is absent and the fold-change
column is present, the loader classifies exactly the rows with positive
fold change as up-regulated and exactly the rows with non-positive fold
change (including zero) as down-regulated. -/
theorem load_degs_foldchange_boundary (t : DegTable)
    (hp : t.parses = true) (hg : t.hasGeneCol = true)
    (hr : t.hasRegCol = false) (hf : t.hasFCCol = true) :
    load_degs t = Except.ok
      ((t.rows.filter (fun r => 0 < r.log2FoldChange)).map DegRow.gene,
       (t.rows.filter (fun r => r.log2FoldChange ≤ 0)).map DegRow.gene) := by
  have e1 : t.rows.filter (fun r => effectiveRegulation t.hasRegCol r = "Upregulated")
      = t.rows.filter (fun r => 0 < r.log2FoldChange) := by
    apply List.filter_congr
    intro r _
    by_cases h : 0 < r.log2FoldChange
    · simp [effectiveRegulation, deriveRegulation, hr, if_pos h, h]
    · simp [effectiveRegulation, deriveRegulation, hr, if_neg h, h]
  have e2 : t.rows.filter (fun r => effectiveRegulation t.hasRegCol r = "Downregulated")
      = t.rows.filter (fun r => r.log2FoldChange ≤ 0) := by
    apply List.filter_congr
    intro r _
    by_cases h : 0 < r.log2FoldChange
    · simp [effectiveRegulation, deriveRegulation, hr, if_pos h, not_le_of_lt h]
    · simp [effectiveRegulation, deriveRegulation, hr, if_neg h, not_lt.mp h]
  rw [hr] at e1 e2
  simp [load_degs, hp, hr, hf, hg, e1, e2]

theorem load_degs_foldchange_boundary_witness :
    fcTable.parses = true ∧ fcTable.hasGeneCol = true ∧ fcTable.hasRegCol = false ∧
    fcTable.hasFCCol = true ∧
    load_degs fcTable = Except.ok
      ((fcTable.rows.filter (fun r => 0 < r.log2FoldChange)).map DegRow.gene,
       (fcTable.rows.filter (fun r => r.log2FoldChange ≤ 0)).map DegRow.gene) :=
  ⟨rfl, rfl, rfl, rfl, load_degs_foldchange_boundary fcTable rfl rfl rfl rfl⟩

/-- Claim C4 fails as stated: in a table whose regulation column is valid
(every row is `Upregulated` or `Downregulated`) but where one gene symbol
occurs in both directions, the two returned gene lists both contain that
symbol, so they are not disjoint. -/
theorem load_degs_duplicate_gene_not_disjoint :
    dupGeneTable.hasRegCol = true ∧
    (dupGeneTable.rows.all fun r =>
      decide (r.regulation = "Upregulated") || decide (r.regulation = "Downregulated")) = true ∧
    load_degs dupGeneTable = Except.ok (["GeneA"], ["GeneA"]) ∧
    ¬ List.Disjoint (["GeneA"] : List String) ["GeneA"] :=
  ⟨rfl, by decide, rfl,
    fun hd => hd (show ("GeneA" : String) ∈ ["GeneA"] from by decide)
      (show ("GeneA" : String) ∈ ["GeneA"] from by decide)⟩

/-- Claim C4 (amended): for a table with a valid regulation column whose
gene column has pairwise-distinct entries, the up list and the down list
returned by the loader are disjoint and together are a permutation of the
full gene column. -/
theorem load_degs_partition_of_nodup (t : DegTable) (up down : List String)
    (hr : t.hasRegCol = true)
    (hval : ∀ r ∈ t.rows, r.regulation = "Upregulated" ∨ r.regulation = "Downregulated")
    (hnodup : (t.rows.map DegRow.gene).Nodup)
    (h : load_degs t = Except.ok (up, down)) :
    List.Perm (up ++ down) (t.rows.map DegRow.gene) ∧ up.Disjoint down := by
  rw [load_degs] at h
  split at h
  · exact absurd h (by simp)
  split at h
  · exact absurd h (by simp)
  split at h
  · exact absurd h (by simp)
  rw [Except.ok.injEq, Prod.mk.injEq] at h
  obtain ⟨h1, h2⟩ := h
  subst h1
  subst h2
  have hcong :
      t.rows.filter (fun r => effectiveRegulation t.hasRegCol r = "Downregulated")
        = t.rows.filter (fun r =>
            !(decide (effectiveRegulation t.hasRegCol r = "Upregulated"))) := by
    apply List.filter_congr
    intro r hmem
    rcases hval r hmem with hu | hd
    · simp [effectiveRegulation, hr, hu]
    · simp [effectiveRegulation, hr, hd]
  have hperm :
      List.Perm
        (t.rows.filter (fun r => effectiveRegulation t.hasRegCol r = "Upregulated")
          ++ t.rows.filter (fun r => effectiveRegulation t.hasRegCol r = "Downregulated"))
        t.rows := by
    rw [hcong]
    exact List.filter_append_perm _ t.rows
  have hpermg :
      List.Perm
        ((t.rows.filter (fun r => effectiveRegulation t.hasRegCol r = "Upregulated")).map
            DegRow.gene
          ++ (t.rows.filter
              (fun r => effectiveRegulation t.hasRegCol r = "Downregulated")).map DegRow.gene)
        (t.rows.map DegRow.gene) := by
    rw [← List.map_append]
    exact hperm.map DegRow.gene
  refine ⟨hpermg, ?_⟩
  have hnd := hpermg.nodup_iff.mpr hnodup
  exact (List.nodup_append.mp hnd).2.2

theorem load_degs_partition_of_nodup_witness :
    okTable.hasRegCol = true ∧
    (∀ r ∈ okTable.rows, r.regulation = "Upregulated" ∨ r.regulation = "Downregulated") ∧
    (okTable.rows.map DegRow.gene).Nodup ∧
    load_degs okTable = Except.ok (["TP53"], ["BRCA1"]) ∧
    (List.Perm (["TP53"] ++ ["BRCA1"]) (okTable.rows.map DegRow.gene) ∧
      List.Disjoint (["TP53"] : List String) ["BRCA1"]) :=
  ⟨rfl, by decide, by decide, rfl,
    load_degs_partition_of_nodup okTable ["TP53"] ["BRCA1"] rfl (by decide) (by decide) rfl⟩

/-- Claim C6: whenever the comparison visualizer produces a chart, its bar
list is exactly the first `top_n` rows of each direction, with each
up-regulated bar carrying magnitude `-log10(adjP)` and each down-regulated
bar carrying the signed, non-negated `log10(adjP)`. -/
theorem create_comparison_plot_sign_convention (log10 : ℚ → ℚ)
    (up_results down_results : EnrTable) (top_n : ℕ) (bars : List PlotBar)
    (h : create_comparison_plot log10 up_results down_results top_n = some bars) :
    bars = (up_results.take top_n).map
        (fun r => PlotBar.mk r.term "Upregulated" (-(log10 r.adjPValue)))
      ++ (down_results.take top_n).map
        (fun r => PlotBar.mk r.term "Downregulated" (log10 r.adjPValue)) := by
  have key : ∀ (l : EnrTable) (f : EnrRow → PlotBar),
      (if !l.isEmpty then (l.take top_n).map f else []) = (l.take top_n).map f := by
    intro l f
    cases l <;> simp
  simp only [create_comparison_plot] at h
  rw [key, key] at h
  split at h
  · exact absurd h (by simp)
  · rw [Option.some.injEq] at h
    exact h.symm

def c6Bars : List PlotBar :=
  [PlotBar.mk "term_up" "Upregulated" 3, PlotBar.mk "term_down" "Downregulated" (-3)]

/-- An up-direction enrichment result with one row. -/
def upEnrTable : EnrTable := [EnrRow.mk "term_up" (1/100) (2/100) ["TP53"]]

/-- A down-direction enrichment result with one row. -/
def downEnrTable : EnrTable := [EnrRow.mk "term_down" (1/100) (3/100) []]

/-- A stand-in for the external base-10 logarithm. -/
def fakeLogTen : ℚ → ℚ := fun _ => -3

theorem create_comparison_plot_sign_convention_witness :
    create_comparison_plot fakeLogTen upEnrTable downEnrTable 10 = some c6Bars ∧
    c6Bars = (upEnrTable.take 10).map
        (fun r => PlotBar.mk r.term "Upregulated" (-(fakeLogTen r.adjPValue)))
      ++ (downEnrTable.take 10).map
        (fun r => PlotBar.mk r.term "Downregulated" (fakeLogTen r.adjPValue)) :=
  ⟨by decide,
    create_comparison_plot_sign_convention fakeLogTen upEnrTable downEnrTable 10 c6Bars
      (by decide)⟩

/-- Claim C3 fails as stated: on a load failure the dictionary returned by
the sample analyzer has no sample-name key at all (while it does carry the
failed status and the error text), so the failed outcome is not keyed by
the sample name. -/
theorem failed_outcome_missing_sample_name :
    (analyze_sample failProvider "human" unparsableTable "sample1" 0).1.status = "failed" ∧
    (analyze_sample failProvider "human" unparsableTable "sample1" 0).1.error
      = some "read_excel failed" ∧
    (analyze_sample failProvider "human" unparsableTable "sample1" 0).1.sample_name = none ∧
    (analyze_sample failProvider "human" unparsableTable "sample1" 0).1.sample_name
      ≠ some "sample1" :=
  ⟨rfl, rfl, rfl, fun hcontra => Option.noConfusion hcontra⟩

/-- Claim C3 (amended): on a load failure the sample analyzer returns the
failed outcome immediately — status `failed`, the load error captured, and
the sample-name and count keys absent — and attempts no enrichment query;
only the success outcome carries the sample name. -/
theorem analyze_sample_load_failure_outcome (provider : Provider) (organism : String)
    (t : DegTable) (sample_name : String) (p_threshold : ℚ) (e : String)
    (h : load_degs t = Except.error e) :
    ((analyze_sample provider organism t sample_name p_threshold).1
      = { sample_name := none, up_genes_count := none, down_genes_count := none,
          status := "failed", error := some e, significant_counts := [] } ∧
    (analyze_sample provider organism t sample_name p_threshold).2 = []) ∧
    (∀ (t2 : DegTable) (up down : List String), load_degs t2 = Except.ok (up, down) →
      (analyze_sample provider organism t2 sample_name p_threshold).1.sample_name
        = some sample_name) := by
  refine ⟨?_, ?_⟩
  · simp [analyze_sample, h]
  · intro t2 up down h2
    simp only [analyze_sample, h2]

theorem analyze_sample_load_failure_outcome_witness :
    load_degs unparsableTable = Except.error "read_excel failed" ∧
    (((analyze_sample failProvider "human" unparsableTable "s" 0).1
      = { sample_name := none, up_genes_count := none, down_genes_count := none,
          status := "failed", error := some "read_excel failed", significant_counts := [] } ∧
    (analyze_sample failProvider "human" unparsableTable "s" 0).2 = []) ∧
    (∀ (t2 : DegTable) (up down : List String), load_degs t2 = Except.ok (up, down) →
      (analyze_sample failProvider "human" t2 "s" 0).1.sample_name = some "s")) :=
  ⟨rfl,
    analyze_sample_load_failure_outcome failProvider "human" unparsableTable "s" 0
      "read_excel failed" rfl⟩

/-- Claim C2 fails as stated: on a sample that loads successfully the
querying phase issues exactly ten enrichment-invoker calls, not one per
pair of six categories and two directions (which would be twelve). -/
theorem analyze_sample_query_count_ne_twelve :
    ((analyze_sample failProvider "human" okTable "s" 0).2).length = 10 ∧
    ((analyze_sample failProvider "human" okTable "s" 0).2).length ≠ 12 :=
  ⟨rfl, by decide⟩

/-- Claim C2 (amended): for every sample whose dataset loads successfully,
the querying phase issues exactly ten independent enrichment-invoker calls —
five gene-set categories (three GO ontology libraries and two pathway
databases) times two regulation directions, one invocation per
(category, direction) pair, in source order. -/
theorem analyze_sample_ten_queries (provider : Provider) (organism : String)
    (t : DegTable) (sample_name : String) (p_threshold : ℚ)
    (up_genes down_genes : List String)
    (h : load_degs t = Except.ok (up_genes, down_genes)) :
    (analyze_sample provider organism t sample_name p_threshold).2 =
      [Query.mk up_genes ["GO_Biological_Process_2018"] organism,
       Query.mk down_genes ["GO_Biological_Process_2018"] organism,
       Query.mk up_genes ["GO_Molecular_Function_2018"] organism,
       Query.mk down_genes ["GO_Molecular_Function_2018"] organism,
       Query.mk up_genes ["GO_Cellular_Component_2018"] organism,
       Query.mk down_genes ["GO_Cellular_Component_2018"] organism,
       Query.mk up_genes ["WikiPathways_2018"] organism,
       Query.mk down_genes ["WikiPathways_2018"] organism,
       Query.mk up_genes ["KEGG_2019"] organism,
       Query.mk down_genes ["KEGG_2019"] organism] ∧
    ((analyze_sample provider organism t sample_name p_threshold).2).length = 10 := by
  simp [analyze_sample, h]

theorem analyze_sample_ten_queries_witness :
    load_degs okTable = Except.ok (["TP53"], ["BRCA1"]) ∧
    ((analyze_sample emptyProvider "human" okTable "s" 0).2 =
      [Query.mk ["TP53"] ["GO_Biological_Process_2018"] "human",
       Query.mk ["BRCA1"] ["GO_Biological_Process_2018"] "human",
       Query.mk ["TP53"] ["GO_Molecular_Function_2018"] "human",
       Query.mk ["BRCA1"] ["GO_Molecular_Function_2018"] "human",
       Query.mk ["TP53"] ["GO_Cellular_Component_2018"] "human",
       Query.mk ["BRCA1"] ["GO_Cellular_Component_2018"] "human",
       Query.mk ["TP53"] ["WikiPathways_2018"] "human",
       Query.mk ["BRCA1"] ["WikiPathways_2018"] "human",
       Query.mk ["TP53"] ["KEGG_2019"] "human",
       Query.mk ["BRCA1"] ["KEGG_2019"] "human"] ∧
      ((analyze_sample emptyProvider "human" okTable "s" 0).2).length = 10) :=
  ⟨rfl, analyze_sample_ten_queries emptyProvider "human" okTable "s" 0 ["TP53"] ["BRCA1"] rfl⟩

/-- Claim C10: the per-sample analysis passes the same fixed library
identifiers — the three `GO_*_2018` ontology libraries, `WikiPathways_2018`
and `KEGG_2019` — to every query for every organism, so two runs differing
only in organism issue queries with identical library identifiers; the
organism-specific catalog of `_get_libraries` (which differs between human
and zebrafish) is never reflected in the issued queries. -/
theorem analyze_sample_libraries_organism_independent (provider : Provider)
    (o1 o2 : String) (t : DegTable) (sample_name : String) (p_threshold : ℚ)
    (up_genes down_genes : List String)
    (h : load_degs t = Except.ok (up_genes, down_genes)) :
    ((analyze_sample provider o1 t sample_name p_threshold).2).map Query.libraries
      = ((analyze_sample provider o2 t sample_name p_threshold).2).map Query.libraries ∧
    ((analyze_sample provider o1 t sample_name p_threshold).2).map Query.libraries
      = [["GO_Biological_Process_2018"], ["GO_Biological_Process_2018"],
         ["GO_Molecular_Function_2018"], ["GO_Molecular_Function_2018"],
         ["GO_Cellular_Component_2018"], ["GO_Cellular_Component_2018"],
         ["WikiPathways_2018"], ["WikiPathways_2018"],
         ["KEGG_2019"], ["KEGG_2019"]] ∧
    get_libraries "human" ≠ get_libraries "zebrafish" := by
  refine ⟨?_, ?_, ?_⟩
  · simp [analyze_sample, h]
  · simp [analyze_sample, h]
  · decide

theorem analyze_sample_libraries_organism_independent_witness :
    load_degs okTable = Except.ok (["TP53"], ["BRCA1"]) ∧
    (((analyze_sample emptyProvider "human" okTable "s" 0).2).map Query.libraries
      = ((analyze_sample emptyProvider "zebrafish" okTable "s" 0).2).map Query.libraries ∧
    ((analyze_sample emptyProvider "human" okTable "s" 0).2).map Query.libraries
      = [["GO_Biological_Process_2018"], ["GO_Biological_Process_2018"],
         ["GO_Molecular_Function_2018"], ["GO_Molecular_Function_2018"],
         ["GO_Cellular_Component_2018"], ["GO_Cellular_Component_2018"],
         ["WikiPathways_2018"], ["WikiPathways_2018"],
         ["KEGG_2019"], ["KEGG_2019"]] ∧
    get_libraries "human" ≠ get_libraries "zebrafish") :=
  ⟨rfl,
    analyze_sample_libraries_organism_independent emptyProvider "human" "zebrafish" okTable
      "s" 0 ["TP53"] ["BRCA1"] rfl⟩

/-- Claim C1: a fault raised while analyzing one file of a batch is caught
by the batch coordinator, recorded as a failed outcome carrying the error
text, and every other file's outcome is exactly what processing that file
alone would produce; and a batch of one load-failing file and two loadable
files yields exactly the statuses failed, success, success in
file-discovery order. -/
theorem batch_analyze_isolates_failures
    (analyzeFn : String → DegTable → Except String SampleOutcome)
    (files : List BatchFile) (i : ℕ) (f : BatchFile) (e : String)
    (hf : files[i]? = some f)
    (hfn : analyzeFn f.name f.table = Except.error e)
    (provider : Provider) (organism : String) (p_threshold : ℚ)
    (bad good1 good2 : DegTable) (nb n1 n2 eb : String)
    (u1 d1 u2 d2 : List String)
    (hbad : load_degs bad = Except.error eb)
    (hg1 : load_degs good1 = Except.ok (u1, d1))
    (hg2 : load_degs good2 = Except.ok (u2, d2)) :
    (batch_analyze analyzeFn files).length = files.length ∧
    (batch_analyze analyzeFn files)[i]? = some
      { sample_name := some f.name, up_genes_count := none, down_genes_count := none,
        status := "failed", error := some e, significant_counts := [] } ∧
    (∀ j g, j ≠ i → files[j]? = some g →
      (batch_analyze analyzeFn files)[j]? = (batch_analyze analyzeFn [g])[0]?) ∧
    (batch_analyze
        (fun n t => Except.ok (analyze_sample provider organism t n p_threshold).1)
        [BatchFile.mk nb bad, BatchFile.mk n1 good1, BatchFile.mk n2 good2]).map
      SampleOutcome.status = ["failed", "success", "success"] := by
  refine ⟨?_, ?_, ?_, ?_⟩
  · simp [batch_analyze]
  · simp only [batch_analyze, List.getElem?_map, hf, Option.map_some', hfn]
  · intro j g hji hg
    simp [batch_analyze, hg]
  · simp [batch_analyze, analyze_sample, hbad, hg1, hg2]

theorem batch_analyze_isolates_failures_witness :
    ([BatchFile.mk "f1" okTable][0]? = some (BatchFile.mk "f1" okTable)) ∧
    throwAnalyzer "f1" okTable = Except.error "boom" ∧
    load_degs unparsableTable = Except.error "read_excel failed" ∧
    load_degs okTable = Except.ok (["TP53"], ["BRCA1"]) ∧
    ((batch_analyze throwAnalyzer [BatchFile.mk "f1" okTable]).length
        = [BatchFile.mk "f1" okTable].length ∧
      (batch_analyze throwAnalyzer [BatchFile.mk "f1" okTable])[0]? = some
        { sample_name := some "f1", up_genes_count := none, down_genes_count := none,
          status := "failed", error := some "boom", significant_counts := [] } ∧
      (∀ j g, j ≠ 0 → [BatchFile.mk "f1" okTable][j]? = some g →
        (batch_analyze throwAnalyzer [BatchFile.mk "f1" okTable])[j]?
          = (batch_analyze throwAnalyzer [g])[0]?) ∧
      (batch_analyze (fun n t => Except.ok (analyze_sample emptyProvider "human" t n 0).1)
          [BatchFile.mk "b" unparsableTable, BatchFile.mk "g1n" okTable,
           BatchFile.mk "g2n" okTable]).map SampleOutcome.status
        = ["failed", "success", "success"]) :=
  ⟨rfl, rfl, rfl, rfl,
    batch_analyze_isolates_failures throwAnalyzer [BatchFile.mk "f1" okTable] 0
      (BatchFile.mk "f1" okTable) "boom" rfl rfl emptyProvider "human" 0
      unparsableTable okTable okTable "b" "g1n" "g2n" "read_excel failed"
      ["TP53"] ["BRCA1"] ["TP53"] ["BRCA1"] rfl rfl rfl⟩
